import Mathlib

set_option maxRecDepth 10000
set_option maxHeartbeats 1000000

/- Verification development for the RadioSpiral player's stream-playback
   controller: a shallow embedding of `StreamPlayer` from radioplayer.go
   (both revisions present in the repository) and of the ffmpeg stderr
   diagnostic-parsing loop from main.go.

   Modelling conventions:
   * Go float64 volume arithmetic is modelled exactly by rational numbers.
   * Byte buffers and strings are modelled as lists of characters; the read
     loop's fixed 255-byte buffer (declared zeroed on every iteration, and
     converted whole with `string(data[:])`, ignoring the byte count actually
     read) is modelled by padding each read chunk with NUL characters to 255.
   * `strings.Split` is embedded as a fuel-based structural recursion
     (`splitGo`); `strings.Contains(s, sub)` is `len(Split(s, sub)) >= 2`,
     which is extensionally what Go computes for a non-empty pattern.
   * A nil Go pointer (subprocess handle, pipe, oto player) is `Option.none`.
     The one method that dereferences a possibly-nil pointer without a guard,
     `IsMuted`, returns `Option Bool`, with `none` standing for the run-time
     nil-pointer panic; every other method is total because the source guards
     the dereference behind a nil check or `IsPlaying()`.
   * The oto (v3) audio player is modelled by its documented observable
     behaviour: a player created by `NewPlayer` is not playing and has the
     device default volume (1.0), `Play` starts sound production unless the
     player has been closed, `Pause` stops it, `Close` stops it permanently,
     `SetVolume`/`Volume` write/read its volume.
   * Subprocess and pipe identities are drawn from a `fresh` counter in the
     state so that "a new subprocess was spawned" is observable. -/

/-- Model of an oto (v3) audio player object: whether it is producing sound,
whether it has been closed, and its current volume. -/
structure OtoPlayer where
  playing : Bool
  closed : Bool
  volume : Rat
deriving DecidableEq

/-- oto `Player.Play`: starts sound production unless the player was closed. -/
def otoPlay (o : OtoPlayer) : OtoPlayer :=
  if o.closed then o else { o with playing := true }

/-- oto `Player.Pause`: stops sound production. -/
def otoPause (o : OtoPlayer) : OtoPlayer :=
  { o with playing := false }

/-- oto `Player.Close`: stops sound production permanently. -/
def otoClose (o : OtoPlayer) : OtoPlayer :=
  { o with playing := false, closed := true }

/-- An OS pipe handle: an identity and an open/closed flag. -/
structure Pipe where
  id : Nat
  isOpen : Bool
deriving DecidableEq

/-- Closing a pipe handle (`io.Closer.Close`). -/
def closePipe (q : Pipe) : Pipe := { q with isOpen := false }

/-- Go `strings.HasSuffix(s, suff)` on the characters of the strings. -/
def hasSuffixGo (s suff : String) : Bool :=
  suff.toList.isSuffixOf s.toList

/-- State of `StreamPlayer` (radioplayer.go, first revision, lines 49-59).
Fields follow the Go struct; `inPipe`/`outPipe`/`audioPipe` are the Go fields
`in` (ffmpeg stdin), `out` (ffmpeg stderr, the diagnostic stream) and `audio`
(ffmpeg stdout, the wave data) — `in` is a Lean keyword. `fresh` is the
model's supply of OS identities for spawned subprocesses and pipes;
`defaultVolume` is the device default volume a newly created oto player
reports (1.0 for oto v3); `playlistArgs` records whether the most recently
built command used the `-playlist` argument list. -/
structure StreamPlayer where
  player_name : String
  stream_url : String
  command : Option Nat
  inPipe : Option Pipe
  outPipe : Option Pipe
  audioPipe : Option Pipe
  otoContext : Bool
  otoPlayer : Option OtoPlayer
  currentVolume : Rat
  fresh : Nat
  defaultVolume : Rat
  playlistArgs : Bool
deriving DecidableEq

/-- `StreamPlayer{player_name: PLAYER_CMD}` (main.go): the Go zero value for
every other field — empty URL, nil subprocess/pipes/oto objects, volume 0. -/
def StreamPlayer.init (name : String) : StreamPlayer where
  player_name := name
  stream_url := ""
  command := none
  inPipe := none
  outPipe := none
  audioPipe := none
  otoContext := false
  otoPlayer := none
  currentVolume := 0
  fresh := 0
  defaultVolume := 1
  playlistArgs := false

/-- `StreamPlayer.IsPlaying` (radioplayer.go 61-68): nil guard (logs "Player
not loaded!" and returns false), otherwise asks the oto player. -/
def StreamPlayer.IsPlaying (p : StreamPlayer) : Bool :=
  match p.otoPlayer with
  | none => false
  | some o => o.playing

/-- Body of the guarded branch of `Load` (radioplayer.go 72-115): build the
ffmpeg command (playlist args for a `.m3u`/`.pls` URL, otherwise the direct
`-i url -f wav -` args), open the stdin/stdout/stderr pipes, start the
subprocess, remember the URL, create the oto context once (kept forever),
create a fresh oto player on the audio pipe, and initialise `currentVolume`
from the new player's volume. -/
def StreamPlayer.spawn (p : StreamPlayer) (stream_url : String) : StreamPlayer :=
  { p with
    playlistArgs := hasSuffixGo stream_url (".m3u") || hasSuffixGo stream_url (".pls")
    command := some p.fresh
    inPipe := some ⟨p.fresh + 1, true⟩
    audioPipe := some ⟨p.fresh + 2, true⟩
    outPipe := some ⟨p.fresh + 3, true⟩
    stream_url := stream_url
    otoContext := true
    otoPlayer := some ⟨false, false, p.defaultVolume⟩
    currentVolume := p.defaultVolume
    fresh := p.fresh + 4 }

/-- `StreamPlayer.Load` (radioplayer.go 70-117): guarded by
`(player.otoPlayer == nil) || (!player.otoPlayer.IsPlaying())`. -/
def StreamPlayer.Load (p : StreamPlayer) (stream_url : String) : StreamPlayer :=
  match p.otoPlayer with
  | none => p.spawn stream_url
  | some o => if o.playing then p else p.spawn stream_url

/-- `StreamPlayer.Play` (radioplayer.go 119-131): nil guard (logs "Stream not
loaded"); if the oto player is not playing, first re-`Load` when the command
handle is nil, then start the oto player. -/
def StreamPlayer.Play (p : StreamPlayer) : StreamPlayer :=
  match p.otoPlayer with
  | none => p
  | some o =>
    if o.playing then p
    else
      let p1 := if p.command = none then p.Load p.stream_url else p
      { p1 with otoPlayer := p1.otoPlayer.map otoPlay }

/-- `StreamPlayer.Close` (radioplayer.go 133-146): only when `IsPlaying()`;
closes the oto player and the three pipes, sets the stderr pipe field to nil
and clears the remembered URL. The subprocess handle `command` is not
touched — the decoder is terminated only through the closing of its pipes. -/
def StreamPlayer.Close (p : StreamPlayer) : StreamPlayer :=
  if p.IsPlaying then
    { p with
      otoPlayer := p.otoPlayer.map otoClose
      inPipe := p.inPipe.map closePipe
      outPipe := none
      audioPipe := p.audioPipe.map closePipe
      stream_url := "" }
  else p

/-- `StreamPlayer.IsMuted` (radioplayer.go 148-150): literally
`return player.otoPlayer.Volume() == 0.0`, with no nil guard; `none` models
the nil-pointer dereference panic when no player has been loaded. -/
def StreamPlayer.IsMuted (p : StreamPlayer) : Option Bool :=
  p.otoPlayer.map fun o => decide (o.volume = 0)

/-- `StreamPlayer.Mute` (radioplayer.go 152-161): while playing, if the
device volume is positive remember it in `currentVolume` and set the device
volume to 0, otherwise restore the remembered volume to the device. -/
def StreamPlayer.Mute (p : StreamPlayer) : StreamPlayer :=
  if p.IsPlaying then
    match p.otoPlayer with
    | none => p
    | some o =>
      if 0 < o.volume then
        { p with currentVolume := o.volume, otoPlayer := some { o with volume := 0 } }
      else
        { p with otoPlayer := some { o with volume := p.currentVolume } }
  else p

/-- `StreamPlayer.Stop` (radioplayer.go 163-167): `Close` when playing. -/
def StreamPlayer.Stop (p : StreamPlayer) : StreamPlayer :=
  if p.IsPlaying then p.Close else p

/-- `StreamPlayer.IncVolume` (radioplayer.go 169-177): while playing, add
0.05 to `currentVolume`, clamp at 1.0 when the sum reaches 1.0, and push the
result to the oto player's volume. -/
def StreamPlayer.IncVolume (p : StreamPlayer) : StreamPlayer :=
  if p.IsPlaying then
    let cv1 := p.currentVolume + 0.05
    let cv2 := if 1 ≤ cv1 then 1 else cv1
    { p with currentVolume := cv2, otoPlayer := p.otoPlayer.map fun o => { o with volume := cv2 } }
  else p

/-- `StreamPlayer.DecVolume` (radioplayer.go 179-187): while playing,
subtract 0.05 from `currentVolume`, clamp at 0.0 when the difference reaches
0.0, and push the result to the oto player's volume. -/
def StreamPlayer.DecVolume (p : StreamPlayer) : StreamPlayer :=
  if p.IsPlaying then
    let cv1 := p.currentVolume - 0.05
    let cv2 := if cv1 ≤ 0 then 0 else cv1
    { p with currentVolume := cv2, otoPlayer := p.otoPlayer.map fun o => { o with volume := cv2 } }
  else p

/-- The device volume currently set on the oto player, if one exists. -/
def otoVolume (p : StreamPlayer) : Option Rat :=
  p.otoPlayer.map OtoPlayer.volume

/-- A pipe field holds a handle that has been closed. -/
def pipeClosedb : Option Pipe → Bool
  | none => false
  | some q => !q.isOpen

/-- Structural well-formedness of a player state: a playing oto player is not
closed, and while the oto player exists un-closed the three session pipes
exist. `StreamPlayer.init` satisfies this and every operation preserves it
(see the `wfb` lemmas); it is exactly what justifies the pointer dereferences
the Go source performs behind its `IsPlaying()` guards. -/
def WFb (p : StreamPlayer) : Bool :=
  match p.otoPlayer with
  | none => true
  | some o =>
    (!o.playing || !o.closed) &&
    (o.closed || (p.inPipe.isSome && p.outPipe.isSome && p.audioPipe.isSome))

/-- Once an oto player exists a command handle exists: `Load` is the only
place either is created and it sets both. Preserved by every operation. -/
def Invb (p : StreamPlayer) : Bool :=
  !p.otoPlayer.isSome || p.command.isSome

/-- Volume sanity: the remembered volume and the device volume lie in
[0, 1]. -/
def volInvB (p : StreamPlayer) : Bool :=
  decide (0 ≤ p.currentVolume) && decide (p.currentVolume ≤ 1) &&
  p.otoPlayer.all fun o => decide (0 ≤ o.volume) && decide (o.volume ≤ 1)

/-- A volume-button press: IncVolume or DecVolume. -/
inductive VolOp
  | inc
  | dec
deriving DecidableEq

/-- Apply one volume operation. -/
def applyVolOp (p : StreamPlayer) : VolOp → StreamPlayer
  | VolOp.inc => p.IncVolume
  | VolOp.dec => p.DecVolume

/-- Apply a sequence of volume operations in order. -/
def applyVolOps (p : StreamPlayer) (ops : List VolOp) : StreamPlayer :=
  ops.foldl applyVolOp p

/-- State of `StreamPlayer` in the second revision of radioplayer.go (lines
212-224 of the concatenated file): same fields plus the `paused` guard flag
and a `pipe_chan` used to hand the stderr pipe to the reader goroutine (the
handoff itself is a goroutine communication and is elided from the state). -/
structure StreamPlayer2 where
  player_name : String
  stream_url : String
  command : Option Nat
  inPipe : Option Pipe
  outPipe : Option Pipe
  audioPipe : Option Pipe
  otoContext : Bool
  otoPlayer : Option OtoPlayer
  currentVolume : Rat
  paused : Bool
  fresh : Nat
  defaultVolume : Rat
  playlistArgs : Bool
deriving DecidableEq

/-- Zero value of the second-revision player, as built in its `main`. -/
def StreamPlayer2.init (name : String) : StreamPlayer2 where
  player_name := name
  stream_url := ""
  command := none
  inPipe := none
  outPipe := none
  audioPipe := none
  otoContext := false
  otoPlayer := none
  currentVolume := 0
  paused := false
  fresh := 0
  defaultVolume := 1
  playlistArgs := false

/-- `IsPlaying` of the second revision: identical to the first. -/
def StreamPlayer2.IsPlaying (p : StreamPlayer2) : Bool :=
  match p.otoPlayer with
  | none => false
  | some o => o.playing

/-- Guarded branch of the second revision's `Load` (lines 236-287): as in the
first revision, plus `player.paused = false` and the handoff of the stderr
pipe to the reader goroutine over `pipe_chan` (elided). -/
def StreamPlayer2.spawn (p : StreamPlayer2) (stream_url : String) : StreamPlayer2 :=
  { p with
    playlistArgs := hasSuffixGo stream_url (".m3u") || hasSuffixGo stream_url (".pls")
    command := some p.fresh
    inPipe := some ⟨p.fresh + 1, true⟩
    audioPipe := some ⟨p.fresh + 2, true⟩
    outPipe := some ⟨p.fresh + 3, true⟩
    stream_url := stream_url
    otoContext := true
    otoPlayer := some ⟨false, false, p.defaultVolume⟩
    currentVolume := p.defaultVolume
    paused := false
    fresh := p.fresh + 4 }

/-- Second revision's `Load` (lines 235-288): same guard
`(otoPlayer == nil) || (!otoPlayer.IsPlaying())` as the first revision. -/
def StreamPlayer2.Load (p : StreamPlayer2) (stream_url : String) : StreamPlayer2 :=
  match p.otoPlayer with
  | none => p.spawn stream_url
  | some o => if o.playing then p else p.spawn stream_url

/-- Second revision's `Play` (lines 290-302): identical to the first. -/
def StreamPlayer2.Play (p : StreamPlayer2) : StreamPlayer2 :=
  match p.otoPlayer with
  | none => p
  | some o =>
    if o.playing then p
    else
      let p1 := if p.command = none then p.Load p.stream_url else p
      { p1 with otoPlayer := p1.otoPlayer.map otoPlay }

/-- Second revision's `Pause` (lines 329-336): while playing and not yet
paused, set the `paused` guard and pause the oto player. -/
def StreamPlayer2.Pause (p : StreamPlayer2) : StreamPlayer2 :=
  if p.IsPlaying then
    if !p.paused then
      { p with paused := true, otoPlayer := p.otoPlayer.map otoPause }
    else p
  else p

/- ——— The diagnostic-stream parsing loop (main.go) ——— -/

/-- Go `strings.Split(s, sep)` on character lists, written with explicit fuel
so that it is structurally recursive: scan left to right, cut at each
leftmost non-overlapping occurrence of `sep`. The fuel is at least the length
of the list being split, which is enough for every step to be taken. -/
def splitGo (sep : List Char) : Nat → List Char → List Char → List (List Char)
  | _, acc, [] => [acc.reverse]
  | 0, acc, l => [acc.reverse ++ l]
  | fuel + 1, acc, c :: rest =>
    if sep.isPrefixOf (c :: rest) then
      acc.reverse :: splitGo sep fuel [] ((c :: rest).drop sep.length)
    else
      splitGo sep fuel (c :: acc) rest

/-- Go `strings.Split(l, sep)` (for the non-empty separators used here). -/
def goSplit (sep l : List Char) : List (List Char) :=
  splitGo sep l.length [] l

/-- Go `strings.Contains(l, sub)`: for a non-empty pattern this is exactly
`len(strings.Split(l, sub)) >= 2`. -/
def containsSub (l sub : List Char) : Bool :=
  decide (2 ≤ (goSplit sub l).length)

/-- The NUL character filling the unread remainder of the 255-byte buffer. -/
def nulChar : Char := Char.ofNat 0

/-- The newline the reader goroutine splits each chunk on. -/
def newlineChar : Char := Char.ofNat 10

/-- One `Read` into `var data [255]byte` followed by `string(data[:])`: the
bytes delivered by the read, padded with NULs to the full buffer length
(the Go code ignores the byte count the read returns). -/
def readChunk (s : List Char) : List Char :=
  s ++ List.replicate (255 - s.length) nulChar

/-- `strings.Split(string(data[:]), "\n")`: the lines the reader goroutine
examines for one chunk. -/
def chunkLines (s : List Char) : List (List Char) :=
  goSplit [newlineChar] (readChunk s)

/-- The playback-start marker `"Output #0"` (main.go 252 / 751). -/
def markerOutput : List Char := ("Output #0").toList

/-- The title marker `"StreamTitle: "` (main.go 258 / 757). -/
def markerTitle : List Char := ("StreamTitle: ").toList

/-- Number of lines of one chunk on which the reader goroutine executes
`playStatus = Playing` (the `strings.Contains(line, "Output #0")` branch). -/
def startEventsOfChunk (chunk : List Char) : Nat :=
  ((chunkLines chunk).filter fun l => containsSub l markerOutput).length

/-- Total number of playback-started effects over a sequence of reads. -/
def startEventsOfChunks (chunks : List (List Char)) : Nat :=
  (chunks.map startEventsOfChunk).sum

/-- The title the reader goroutine emits for one line, if any: when the line
contains `"StreamTitle: "` it executes
`nowPlayingLabel.SetText(strings.Split(line, "StreamTitle: ")[1])`. -/
def titleOfLine (l : List Char) : Option (List Char) :=
  if containsSub l markerTitle then some ((goSplit markerTitle l).getD 1 []) else none

/-- All titles emitted while processing one read chunk. -/
def titlesOfChunk (chunk : List Char) : List (List Char) :=
  (chunkLines chunk).filterMap titleOfLine

/- ——— The UI play-button state machine of main.go (first revision) ——— -/

/-- The `playStatus` enum of main.go (first revision, lines 65-69). -/
inductive PlayStatus
  | Loading
  | Playing
  | Stopped
deriving DecidableEq

/-- The stream URL hard-wired into the play button. -/
def RADIOSPIRAL_STREAM : String := "https://radiospiral.radio/stream.mp3"

/-- The player together with main.go's `playStatus` variable. -/
structure Sys1 where
  sp : StreamPlayer
  status : PlayStatus
deriving DecidableEq

/-- The play-button callback (main.go first revision, lines 210-233): if the
player reports not playing, Load + Play and go to Loading; otherwise from
Playing go to Stopped and Stop, else go to Loading and Load + Play again.
Icon and label updates are GUI-only and elided. -/
def Sys1.pressPlay (s : Sys1) : Sys1 :=
  if !s.sp.IsPlaying then
    { sp := (s.sp.Load RADIOSPIRAL_STREAM).Play, status := PlayStatus.Loading }
  else if s.status = PlayStatus.Playing then
    { sp := s.sp.Stop, status := PlayStatus.Stopped }
  else
    { sp := (s.sp.Load RADIOSPIRAL_STREAM).Play, status := PlayStatus.Loading }

/-- Effect of one diagnostic line on `playStatus` in the reader goroutine
(main.go first revision, lines 252-255). -/
def Sys1.onLine (s : Sys1) (line : List Char) : Sys1 :=
  if containsSub line markerOutput then { s with status := PlayStatus.Playing } else s

/- ——— Shared concrete states used by witnesses and counterexamples ——— -/

/-- The player right after `Load(RADIOSPIRAL_STREAM)` from the zero value. -/
def sLoaded : StreamPlayer := (StreamPlayer.init ("ffmpeg")).Load RADIOSPIRAL_STREAM

/-- The player after `Load` then `Play`: the oto player is producing sound. -/
def sPlaying : StreamPlayer := sLoaded.Play

/-- The player after `Load`, `Play`, `Stop`: session torn down. -/
def sStopped : StreamPlayer := sPlaying.Stop

/-- Second-revision player after `Load` then `Play`. -/
def s2Playing : StreamPlayer2 :=
  ((StreamPlayer2.init ("ffmpeg")).Load RADIOSPIRAL_STREAM).Play

/-- Second-revision player after `Load`, `Play`, `Pause`: the Paused state. -/
def s2Paused : StreamPlayer2 := s2Playing.Pause

/-- Playing player with the volume stepped down 19 times (to 0.05) and then
muted: device volume 0, remembered volume 0.05 — reached from the zero value
by `Load`, `Play`, 19 presses of the volume-down button, `Mute`. -/
def sMutedLow : StreamPlayer :=
  sPlaying.DecVolume.DecVolume.DecVolume.DecVolume.DecVolume.DecVolume.DecVolume.DecVolume.DecVolume.DecVolume.DecVolume.DecVolume.DecVolume.DecVolume.DecVolume.DecVolume.DecVolume.DecVolume.DecVolume.Mute

/- ——— Claim C1 ——— -/

/-- Claim C1: operations invoked with no active session must be safe no-ops
that never crash, and in particular `IsMuted()` and `IsPlaying()` called when
no player has been loaded should return benignly. The code violates this for
`IsMuted`: on the zero-value player (no `Load` yet) `IsPlaying()` does return
false after logging, but `IsMuted()` dereferences the nil `otoPlayer` —
modelled by `none` — and panics at run time. -/
theorem C1_isMuted_panics_unloaded :
    (StreamPlayer.init ("ffmpeg")).IsMuted = none ∧
    (StreamPlayer.init ("ffmpeg")).IsPlaying = false := by decide

/- ——— Claim C2 ——— -/

/-- Claim C2: the diagnostic byte sequence `"Output #0, wav\n"` should yield
exactly one playback-started effect however it is split into read chunks.
The code violates this: delivered whole it yields one effect, but split as
`"Out"` / `"put #0, wav\n"` the marker `"Output #0"` straddles the chunk
boundary, `strings.Contains` finds it in neither chunk's lines, and zero
effects are produced (`playStatus` is never set to Playing). -/
theorem C2_start_marker_lost_across_chunks :
    startEventsOfChunks [("Output #0, wav\n").toList] = 1 ∧
    startEventsOfChunks [("Out").toList, ("put #0, wav\n").toList] = 0 := by decide

/- ——— Claim C3 ——— -/

/-- Counterexample to claim C3: in the Paused state (second revision:
`Load`; `Play`; `Pause`, so `paused` is set and the play state is Paused, not
Stopped) `Load` is not a no-op — the guard only asks the oto player, which
reports not playing while paused, so a whole new subprocess is spawned and
the session identity (command handle, pipes, oto player) is replaced. -/
theorem C3_load_spawns_new_session_while_paused :
    s2Paused.paused = true ∧ s2Paused.IsPlaying = false ∧
    s2Paused.otoPlayer.isSome = true ∧
    (s2Paused.Load RADIOSPIRAL_STREAM).command ≠ s2Paused.command ∧
    (s2Paused.Load RADIOSPIRAL_STREAM).fresh = s2Paused.fresh + 4 := by decide

/-- Claim C3 as amended: `Load(url)` is a no-op exactly when the sink's oto
player exists and is currently producing sound; whenever the player reports
not playing — including the Paused state and after `Stop`/`Close` — `Load`
spawns a new subprocess with fresh pipes and a fresh oto player and replaces
the session. -/
theorem C3_load_noop_iff_sink_playing (p : StreamPlayer2) (url : String) :
    (p.IsPlaying = true → p.Load url = p) ∧
    (p.IsPlaying = false →
      (p.Load url).command = some p.fresh ∧ (p.Load url).fresh = p.fresh + 4 ∧
      (p.Load url).stream_url = url ∧
      (p.Load url).otoPlayer = some ⟨false, false, p.defaultVolume⟩) := by
  cases hp : p.otoPlayer with
  | none =>
    simp [StreamPlayer2.IsPlaying, StreamPlayer2.Load, StreamPlayer2.spawn, hp]
  | some o =>
    cases hpl : o.playing <;>
      simp [StreamPlayer2.IsPlaying, StreamPlayer2.Load, StreamPlayer2.spawn, hp, hpl]

/-- Witness for the amended C3 at a concrete playing state. -/
theorem C3_load_noop_iff_sink_playing_witness :
    s2Playing.Load RADIOSPIRAL_STREAM = s2Playing :=
  (C3_load_noop_iff_sink_playing s2Playing RADIOSPIRAL_STREAM).1 (by decide)

/- ——— Shared lemmas about Close/Stop ——— -/

/-- `Close` on a player that reports not playing changes nothing. -/
theorem close_noop (q : StreamPlayer) (h : q.IsPlaying = false) : q.Close = q := by
  simp [StreamPlayer.Close, h]

/-- `Stop` on a player that reports not playing changes nothing. -/
theorem stop_noop (q : StreamPlayer) (h : q.IsPlaying = false) : q.Stop = q := by
  simp [StreamPlayer.Stop, h]

/-- Unpacking `WFb` at a playing state: the oto player is not closed and the
three pipes exist. -/
theorem wfb_playing (p : StreamPlayer) (o : OtoPlayer) (hwf : WFb p = true)
    (hpo : p.otoPlayer = some o) (hpl : o.playing = true) :
    o.closed = false ∧ p.inPipe.isSome = true ∧ p.outPipe.isSome = true ∧
      p.audioPipe.isSome = true := by
  simp only [WFb, hpo, hpl, Bool.not_true, Bool.false_or, Bool.and_eq_true,
    Bool.not_eq_true', Bool.or_eq_true] at hwf
  obtain ⟨hcl, hpipes⟩ := hwf
  rcases hpipes with hcl2 | ⟨⟨h1, h2⟩, h3⟩
  · rw [hcl] at hcl2; cases hcl2
  · exact ⟨hcl, h1, h2, h3⟩

/-- Field-by-field effect of an effective `Close` (player loaded and
playing): the stdin and audio pipes are closed, the stderr pipe field is
nil'd, the oto player is closed, the URL is cleared, and the command handle
and the shared oto context are untouched. -/
theorem close_playing_fields (p : StreamPlayer) (o : OtoPlayer)
    (hpo : p.otoPlayer = some o) (hpl : o.playing = true)
    (hin : p.inPipe.isSome = true) (haud : p.audioPipe.isSome = true) :
    pipeClosedb (p.Close).inPipe = true ∧ (p.Close).outPipe = none ∧
    pipeClosedb (p.Close).audioPipe = true ∧
    (p.Close).otoPlayer = some (otoClose o) ∧
    (p.Close).stream_url = "" ∧ (p.Close).command = p.command ∧
    (p.Close).otoContext = p.otoContext := by
  have h : p.IsPlaying = true := by simp [StreamPlayer.IsPlaying, hpo, hpl]
  obtain ⟨qi, hqi⟩ := Option.isSome_iff_exists.mp hin
  obtain ⟨qa, hqa⟩ := Option.isSome_iff_exists.mp haud
  simp [StreamPlayer.Close, h, hpo, hqi, hqa, pipeClosedb, closePipe]

/-- A player is never reported playing after `Close`. -/
theorem close_isPlaying_false (p : StreamPlayer) : (p.Close).IsPlaying = false := by
  by_cases h : p.IsPlaying = true
  · rcases hpo : p.otoPlayer with _ | o
    · simp [StreamPlayer.IsPlaying, hpo] at h
    · have hpl : o.playing = true := by simpa [StreamPlayer.IsPlaying, hpo] using h
      simp [StreamPlayer.Close, h, hpo, hpl, StreamPlayer.IsPlaying, otoClose]
  · have h2 : p.IsPlaying = false := by simpa using h
    rw [close_noop p h2]; exact h2

/- ——— Claim C4 ——— -/

/-- The system state reached by one press of the play button from the
initial state: main.go sets `playStatus = Loading` after `Load` + `Play`. -/
def sysLoading : Sys1 :=
  Sys1.pressPlay { sp := StreamPlayer.init ("ffmpeg"), status := PlayStatus.Stopped }

/-- Counterexample to claim C4: the claim says `Stop()` is effective exactly
in the Playing and Paused states, but in the reachable Loading state (one
play-button press: `playStatus = Loading`, oto player already producing
sound) `Stop` is effective — it changes the player. -/
theorem C4_stop_effective_in_loading_state :
    sysLoading.status = PlayStatus.Loading ∧ sysLoading.sp.Stop ≠ sysLoading.sp := by
  decide

/-- Claim C4 as amended: `Stop()` is effective exactly when the oto player is
loaded and producing sound — which also holds in the Loading state, not only
Playing (this revision has no Paused state). When effective it closes the
audio player and the three pipes (nil'ing the stderr pipe field), clears the
remembered URL, and leaves the player not playing (the Stopped condition);
the subprocess handle is retained, the decoder being terminated only through
the closing of its pipes. -/
theorem C4_stop_iff_sink_playing (p : StreamPlayer) (hwf : WFb p = true) :
    (p.IsPlaying = false → p.Stop = p) ∧
    (p.IsPlaying = true →
      (p.Stop).IsPlaying = false ∧ p.Stop ≠ p ∧
      pipeClosedb (p.Stop).inPipe = true ∧ (p.Stop).outPipe = none ∧
      pipeClosedb (p.Stop).audioPipe = true ∧
      (p.Stop).stream_url = "" ∧ (p.Stop).command = p.command ∧
      (p.Stop).otoContext = p.otoContext) := by
  refine ⟨stop_noop p, ?_⟩
  intro h
  rcases hpo : p.otoPlayer with _ | o
  · simp [StreamPlayer.IsPlaying, hpo] at h
  · have hpl : o.playing = true := by
      have := h; simp [StreamPlayer.IsPlaying, hpo] at this; exact this
    obtain ⟨hcl, hin, hout, haud⟩ := wfb_playing p o hwf hpo hpl
    have hstop : p.Stop = p.Close := by simp [StreamPlayer.Stop, h]
    obtain ⟨f1, f2, f3, f4, f5, f6, f7⟩ := close_playing_fields p o hpo hpl hin haud
    have hnp : (p.Close).IsPlaying = false := close_isPlaying_false p
    refine ⟨by rw [hstop]; exact hnp, ?_, by rw [hstop]; exact f1,
      by rw [hstop]; exact f2, by rw [hstop]; exact f3, by rw [hstop]; exact f5,
      by rw [hstop]; exact f6, by rw [hstop]; exact f7⟩
    intro heq
    rw [hstop] at heq
    rw [heq] at hnp
    rw [h] at hnp
    cases hnp

/-- Witness for the amended C4 at the concrete playing state. -/
theorem C4_stop_iff_sink_playing_witness :
    (sPlaying.Stop).IsPlaying = false ∧ pipeClosedb (sPlaying.Stop).inPipe = true :=
  ⟨((C4_stop_iff_sink_playing sPlaying (by decide)).2 (by decide)).1,
   ((C4_stop_iff_sink_playing sPlaying (by decide)).2 (by decide)).2.2.1⟩

/- ——— Claim C5 ——— -/

/-- Counterexample to claim C5: after `Load`; `Play`; `Stop` the subprocess
handle is still recorded (`command` is not nil — `Stop`/`Close` never clear
it) and the remembered URL has been cleared, so `Play()` does not re-invoke
`Load`: it changes nothing at all (the closed oto player ignores `Play`),
and the sink is not playing afterwards — contrary to the claim that after
`Stop` a `Play` re-Loads the remembered URL and starts the sink. -/
theorem C5_play_after_stop_does_not_reload :
    sStopped.command ≠ none ∧ sStopped.stream_url = "" ∧
    sStopped.Play = sStopped ∧ (sStopped.Play).IsPlaying = false := by decide

/-- Claim C5 as amended: `Play()` with no session loaded is a benign logged
no-op; when a session exists and the sink is not playing, `Play()` would
first re-invoke `Load` only if no subprocess handle had ever been recorded —
a situation that cannot arise once a session exists, because `Load` is the
only creator of the oto player and always records the handle, and
`Stop`/`Close` retain it — and then calls the sink's play transport, which
resumes sound only if the player was not closed. -/
theorem C5_play_noop_or_start_sink (p : StreamPlayer) :
    (p.otoPlayer = none → p.Play = p) ∧
    (Invb p = true → ∀ o, p.otoPlayer = some o → o.playing = false →
      p.Play = { p with otoPlayer := some (otoPlay o) }) := by
  constructor
  · intro h; simp [StreamPlayer.Play, h]
  · intro hinv o hp hpl
    have hc : ¬(p.command = none) := by
      simp [Invb, hp] at hinv
      exact Option.isSome_iff_ne_none.mp hinv
    simp [StreamPlayer.Play, hp, hpl, hc]

/-- Witness for the amended C5: on the freshly loaded (not yet playing)
state, `Play` only starts the oto player. -/
theorem C5_play_noop_or_start_sink_witness :
    sLoaded.Play = { sLoaded with otoPlayer := some (otoPlay ⟨false, false, 1⟩) } :=
  (C5_play_noop_or_start_sink sLoaded).2 (by decide) ⟨false, false, 1⟩ (by decide) rfl

/- ——— Claim C6 ——— -/

/-- Claim C6: `Stop()` in the Stopped condition is a no-op; `Close()` is
callable from any state and always ends not playing; `Close()` is idempotent
(a second call changes nothing); and an effective `Close` closes the two
still-held pipes, nils the stderr pipe, closes the audio player and leaves
the shared oto context (and the command handle, through whose closed pipes
the decoder terminates) intact. -/
theorem C6_close_idempotent_and_releases (p : StreamPlayer) (hwf : WFb p = true) :
    (p.IsPlaying = false → p.Stop = p) ∧
    ((p.Close).Close = p.Close) ∧
    ((p.Close).IsPlaying = false) ∧
    (p.IsPlaying = true →
      pipeClosedb (p.Close).inPipe = true ∧ (p.Close).outPipe = none ∧
      pipeClosedb (p.Close).audioPipe = true ∧
      ((p.Close).otoPlayer.all fun o => o.closed && !o.playing) = true ∧
      (p.Close).otoPlayer.isSome = true ∧
      (p.Close).stream_url = "" ∧ (p.Close).command = p.command ∧
      (p.Close).otoContext = p.otoContext) := by
  have hC : (p.Close).IsPlaying = false := close_isPlaying_false p
  refine ⟨stop_noop p, close_noop (p.Close) hC, hC, ?_⟩
  intro h
  rcases hpo : p.otoPlayer with _ | o
  · simp [StreamPlayer.IsPlaying, hpo] at h
  · have hpl : o.playing = true := by simpa [StreamPlayer.IsPlaying, hpo] using h
    obtain ⟨hcl, hin, hout, haud⟩ := wfb_playing p o hwf hpo hpl
    obtain ⟨f1, f2, f3, f4, f5, f6, f7⟩ := close_playing_fields p o hpo hpl hin haud
    refine ⟨f1, f2, f3, ?_, ?_, f5, f6, f7⟩
    · simp [f4, otoClose]
    · simp [f4]

/-- Witness for C6 at the concrete playing state. -/
theorem C6_close_idempotent_and_releases_witness :
    (sPlaying.Close).Close = sPlaying.Close ∧ (sPlaying.Close).outPipe = none :=
  ⟨(C6_close_idempotent_and_releases sPlaying (by decide)).2.1,
   ((C6_close_idempotent_and_releases sPlaying (by decide)).2.2.2 (by decide)).2.1⟩

/- ——— Shared lemmas about the volume operations ——— -/

/-- `IncVolume` on a player that reports not playing changes nothing. -/
theorem incVolume_noop (p : StreamPlayer) (h : ¬p.IsPlaying = true) :
    p.IncVolume = p := by
  simp [StreamPlayer.IncVolume, h]

/-- `DecVolume` on a player that reports not playing changes nothing. -/
theorem decVolume_noop (p : StreamPlayer) (h : ¬p.IsPlaying = true) :
    p.DecVolume = p := by
  simp [StreamPlayer.DecVolume, h]

/-- Effect of `IncVolume` while playing, with the clamp spelled out. -/
theorem incVolume_eq (p : StreamPlayer) (hpl : p.IsPlaying = true) :
    p.IncVolume = { p with
      currentVolume := if 1 ≤ p.currentVolume + 0.05 then 1 else p.currentVolume + 0.05,
      otoPlayer := p.otoPlayer.map fun o =>
        { o with volume := if 1 ≤ p.currentVolume + 0.05 then 1 else p.currentVolume + 0.05 } } := by
  simp [StreamPlayer.IncVolume, hpl]

/-- Effect of `DecVolume` while playing, with the clamp spelled out. -/
theorem decVolume_eq (p : StreamPlayer) (hpl : p.IsPlaying = true) :
    p.DecVolume = { p with
      currentVolume := if p.currentVolume - 0.05 ≤ 0 then 0 else p.currentVolume - 0.05,
      otoPlayer := p.otoPlayer.map fun o =>
        { o with volume := if p.currentVolume - 0.05 ≤ 0 then 0 else p.currentVolume - 0.05 } } := by
  simp [StreamPlayer.DecVolume, hpl]

/-- The clamped incremented volume stays in [0, 1]. -/
theorem clamp_inc_bounds (v : Rat) (h0 : 0 ≤ v) :
    0 ≤ (if 1 ≤ v + 0.05 then (1 : Rat) else v + 0.05) ∧
      (if 1 ≤ v + 0.05 then (1 : Rat) else v + 0.05) ≤ 1 := by
  split
  · norm_num
  · rename_i hc
    push_neg at hc
    constructor <;> linarith

/-- The clamped decremented volume stays in [0, 1]. -/
theorem clamp_dec_bounds (v : Rat) (h1 : v ≤ 1) :
    0 ≤ (if v - 0.05 ≤ 0 then (0 : Rat) else v - 0.05) ∧
      (if v - 0.05 ≤ 0 then (0 : Rat) else v - 0.05) ≤ 1 := by
  split
  · norm_num
  · rename_i hc
    push_neg at hc
    constructor <;> linarith

/-- The two numeric bounds recorded by `volInvB`. -/
theorem volInvB_bounds (p : StreamPlayer) (h : volInvB p = true) :
    0 ≤ p.currentVolume ∧ p.currentVolume ≤ 1 := by
  simp only [volInvB, Bool.and_eq_true, decide_eq_true_eq] at h
  exact ⟨h.1.1, h.1.2⟩

/-- `IncVolume` preserves the volume invariant. -/
theorem volInvB_inc (p : StreamPlayer) (h : volInvB p = true) :
    volInvB p.IncVolume = true := by
  by_cases hpl : p.IsPlaying = true
  · obtain ⟨h0, h1⟩ := volInvB_bounds p h
    obtain ⟨hb0, hb1⟩ := clamp_inc_bounds p.currentVolume h0
    rw [incVolume_eq p hpl]
    rcases hpo : p.otoPlayer with _ | o <;>
      simp_all [volInvB, hpo]
  · rw [incVolume_noop p hpl]; exact h

/-- `DecVolume` preserves the volume invariant. -/
theorem volInvB_dec (p : StreamPlayer) (h : volInvB p = true) :
    volInvB p.DecVolume = true := by
  by_cases hpl : p.IsPlaying = true
  · obtain ⟨h0, h1⟩ := volInvB_bounds p h
    obtain ⟨hb0, hb1⟩ := clamp_dec_bounds p.currentVolume h1
    rw [decVolume_eq p hpl]
    rcases hpo : p.otoPlayer with _ | o <;>
      simp_all [volInvB, hpo]
  · rw [decVolume_noop p hpl]; exact h

/-- Any sequence of volume-button presses preserves the volume invariant. -/
theorem volInvB_ops (ops : List VolOp) :
    ∀ p : StreamPlayer, volInvB p = true → volInvB (applyVolOps p ops) = true := by
  induction ops with
  | nil => intro p h; exact h
  | cons op rest ih =>
    intro p h
    rw [applyVolOps, List.foldl_cons]
    cases op
    · exact ih _ (volInvB_inc p h)
    · exact ih _ (volInvB_dec p h)

/- ——— Claim C7 ——— -/

/-- Claim C7: starting from any volume state in [0, 1], every sequence of
volume-button presses keeps both the remembered volume and the device volume
in [0, 1]; an effective press changes the remembered volume by exactly 0.05
unless it is clamped at a bound, mirrors the result to the device volume,
and both operations are no-ops unless the player is currently playing. -/
theorem C7_volume_bounds_and_step (p : StreamPlayer) (ops : List VolOp)
    (h : volInvB p = true) :
    volInvB (applyVolOps p ops) = true ∧
    (¬p.IsPlaying = true → p.IncVolume = p ∧ p.DecVolume = p) ∧
    (p.IsPlaying = true →
      (1 ≤ p.currentVolume + 0.05 → (p.IncVolume).currentVolume = 1) ∧
      (p.currentVolume + 0.05 < 1 →
        (p.IncVolume).currentVolume = p.currentVolume + 0.05) ∧
      (p.currentVolume - 0.05 ≤ 0 → (p.DecVolume).currentVolume = 0) ∧
      (0 < p.currentVolume - 0.05 →
        (p.DecVolume).currentVolume = p.currentVolume - 0.05) ∧
      otoVolume p.IncVolume = some (p.IncVolume).currentVolume ∧
      otoVolume p.DecVolume = some (p.DecVolume).currentVolume) := by
  refine ⟨volInvB_ops ops p h, fun hpl => ⟨incVolume_noop p hpl, decVolume_noop p hpl⟩, ?_⟩
  intro hpl
  rcases hpo : p.otoPlayer with _ | o
  · simp [StreamPlayer.IsPlaying, hpo] at hpl
  · rw [incVolume_eq p hpl, decVolume_eq p hpl]
    refine ⟨fun hc => by simp [hc], fun hc => by simp [not_le.mpr hc], fun hc => by simp [hc],
      fun hc => by simp [not_le.mpr hc], ?_, ?_⟩ <;>
      simp [otoVolume, hpo]

/-- Witness for C7: from the playing state (volume 1), pressing volume-up
then volume-down keeps the invariant, and a volume-up press clamps at 1. -/
theorem C7_volume_bounds_and_step_witness :
    volInvB (applyVolOps sPlaying [VolOp.inc, VolOp.dec]) = true ∧
    (sPlaying.IncVolume).currentVolume = 1 :=
  ⟨(C7_volume_bounds_and_step sPlaying [VolOp.inc, VolOp.dec] (by decide)).1,
   (((C7_volume_bounds_and_step sPlaying [] (by decide)).2.2 (by decide)).1
     (by rw [show sPlaying.currentVolume = 1 by decide]; norm_num))⟩

/- ——— Claim C8 ——— -/

/-- Claim C8: while the player is playing (and volumes are in their valid
non-negative range), `Mute(); Mute()` is an involution — the device volume
returns to its exact pre-mute value (the oto player is restored wholesale),
and the remembered pre-mute volume is kept: it becomes the device volume
that was remembered by the first `Mute` when that volume was positive, and
is untouched otherwise. -/
theorem C8_mute_involution (p : StreamPlayer) (o : OtoPlayer)
    (hpo : p.otoPlayer = some o) (hpl : o.playing = true)
    (hv : 0 ≤ o.volume) (hcv : 0 ≤ p.currentVolume) :
    (p.Mute).Mute =
      { p with currentVolume := if 0 < o.volume then o.volume else p.currentVolume } := by
  obtain ⟨opl, ocl, ov⟩ := o
  simp only [] at hpl hv
  subst hpl
  have h : p.IsPlaying = true := by simp [StreamPlayer.IsPlaying, hpo]
  by_cases hov : 0 < ov
  · have h1 : p.Mute =
        { p with currentVolume := ov, otoPlayer := some ⟨true, ocl, 0⟩ } := by
      simp [StreamPlayer.Mute, h, hpo, hov]
    rw [h1]
    simp [StreamPlayer.Mute, StreamPlayer.IsPlaying, hov, hpo]
  · have ho0 : ov = 0 := le_antisymm (not_lt.mp hov) hv
    subst ho0
    have h1 : p.Mute = { p with otoPlayer := some ⟨true, ocl, p.currentVolume⟩ } := by
      simp [StreamPlayer.Mute, h, hpo]
    rw [h1]
    by_cases hcv0 : 0 < p.currentVolume
    · simp [StreamPlayer.Mute, StreamPlayer.IsPlaying, hcv0, hpo]
    · have hcve : p.currentVolume = 0 := le_antisymm (not_lt.mp hcv0) hcv
      simp [StreamPlayer.Mute, StreamPlayer.IsPlaying, hcv0, hcve, hpo]

/-- Witness for C8 at the concrete playing state (device volume 1). -/
theorem C8_mute_involution_witness :
    (sPlaying.Mute).Mute =
      { sPlaying with currentVolume := if 0 < (1 : Rat) then 1 else sPlaying.currentVolume } :=
  C8_mute_involution sPlaying ⟨true, false, 1⟩ (by decide) rfl (by norm_num) (by decide)

/- ——— Shared lemmas about the chunk splitter ——— -/

/-- A single character that occurs nowhere in a list is not an infix of it. -/
theorem not_infix_single (c : Char) (l : List Char) (h : c ∉ l) : ¬([c] <:+: l) := by
  rintro ⟨s, t, rfl⟩
  exact h (by simp)

/-- A pattern containing a character absent from a list is not an infix. -/
theorem not_infix_of_mem_not_mem (sep l : List Char) (c : Char) (hc : c ∈ sep)
    (h : c ∉ l) : ¬(sep <:+: l) := by
  rintro ⟨s, t, rfl⟩
  exact h (by simp [hc])

/-- Splitting a list in which the separator does not occur yields one piece. -/
theorem splitGo_no_occ (sep : List Char) :
    ∀ (l acc : List Char) (fuel : Nat), l.length ≤ fuel → ¬(sep <:+: l) →
      splitGo sep fuel acc l = [acc.reverse ++ l] := by
  intro l
  induction l with
  | nil =>
    intro acc fuel _ _
    cases fuel <;> simp [splitGo]
  | cons c rest ih =>
    intro acc fuel hlen hocc
    cases fuel with
    | zero => simp at hlen
    | succ f =>
      have hpre : sep.isPrefixOf (c :: rest) = false := by
        cases hq : sep.isPrefixOf (c :: rest)
        · rfl
        · exact absurd (List.isPrefixOf_iff_prefix.mp hq).isInfix hocc
      have hocc2 : ¬(sep <:+: rest) := fun hx => hocc (List.infix_cons hx)
      have hlen2 : rest.length ≤ f := by simp at hlen; omega
      simp only [splitGo, hpre, Bool.false_eq_true, if_false]
      rw [ih (c :: acc) f hlen2 hocc2]
      simp

/-- Splitting at an occurrence of the separator placed at the head. -/
theorem splitGo_match (sep : List Char) (hsep : sep ≠ []) (acc rest : List Char)
    (f : Nat) :
    splitGo sep (f + 1) acc (sep ++ rest) = acc.reverse :: splitGo sep f [] rest := by
  rcases sep with _ | ⟨s, ss⟩
  · exact absurd rfl hsep
  · have hpre : (s :: ss).isPrefixOf ((s :: ss) ++ rest) = true :=
      List.isPrefixOf_iff_prefix.mpr ⟨rest, rfl⟩
    show splitGo (s :: ss) (f + 1) acc (s :: (ss ++ rest)) = _
    simp only [splitGo, List.cons_append, hpre, if_true]
    simp [List.drop_append_of_le_length]

/-- Walking a single-character separator through a prefix that avoids it. -/
theorem splitGo_walk (c : Char) :
    ∀ (pre : List Char), c ∉ pre → ∀ (rest acc : List Char) (f : Nat),
      splitGo [c] (pre.length + f) acc (pre ++ rest) =
        splitGo [c] f (pre.reverse ++ acc) rest := by
  intro pre
  induction pre with
  | nil => intro _ rest acc f; simp
  | cons a pr ih =>
    intro hmem rest acc f
    have hne : (c == a) = false := by
      simp only [beq_eq_false_iff_ne, ne_eq]
      intro h
      exact hmem (h ▸ List.mem_cons_self a pr)
    have hmem2 : c ∉ pr := fun h => hmem (List.mem_cons_of_mem a h)
    have hlen : (a :: pr).length + f = (pr.length + f) + 1 := by
      simp [Nat.add_right_comm]
    rw [hlen]
    show splitGo [c] ((pr.length + f) + 1) acc (a :: (pr ++ rest)) = _
    have hpre : ([c]).isPrefixOf (a :: (pr ++ rest)) = false := by
      simp [List.isPrefixOf, hne]
    simp only [splitGo, hpre, Bool.false_eq_true, if_false]
    rw [ih hmem2 rest (a :: acc) f]
    simp

/-- A chunk consisting of one newline-free line plus its newline splits into
that line followed by the NUL padding of the read buffer. -/
theorem chunkLines_single_line (pre : List Char) (hnl : newlineChar ∉ pre) :
    chunkLines (pre ++ [newlineChar]) =
      [pre, List.replicate (255 - (pre ++ [newlineChar]).length) nulChar] := by
  have hnlnul : newlineChar ∉ List.replicate (255 - (pre ++ [newlineChar]).length) nulChar := by
    simp [List.mem_replicate]
    intro _
    decide
  unfold chunkLines readChunk goSplit
  have harr : (pre ++ [newlineChar]) ++
      List.replicate (255 - (pre ++ [newlineChar]).length) nulChar =
      pre ++ ([newlineChar] ++
        List.replicate (255 - (pre ++ [newlineChar]).length) nulChar) := by
    simp
  rw [harr]
  have hfuel : (pre ++ ([newlineChar] ++
      List.replicate (255 - (pre ++ [newlineChar]).length) nulChar)).length =
      pre.length +
        ((List.replicate (255 - (pre ++ [newlineChar]).length) nulChar).length + 1) := by
    simp
  rw [hfuel]
  rw [splitGo_walk newlineChar pre hnl]
  rw [splitGo_match [newlineChar] (by decide)]
  rw [splitGo_no_occ [newlineChar] _ [] _ le_rfl (not_infix_single _ _ hnlnul)]
  simp

/-- Splitting a line that begins with the title marker, the marker occurring
nowhere else, yields the empty prefix and the remainder. -/
theorem goSplit_marker_head (t : List Char) (hocc : ¬(markerTitle <:+: t)) :
    goSplit markerTitle (markerTitle ++ t) = [[], t] := by
  unfold goSplit
  have hfuel : (markerTitle ++ t).length = (t.length + 12) + 1 := by
    simp [markerTitle]
  rw [hfuel]
  rw [splitGo_match markerTitle (by decide)]
  rw [splitGo_no_occ markerTitle t [] (t.length + 12) (by omega) hocc]
  simp

/-- The title emitted for a line that is the marker followed by the title. -/
theorem titleOfLine_marker (t : List Char) (hocc : ¬(markerTitle <:+: t)) :
    titleOfLine (markerTitle ++ t) = some t := by
  unfold titleOfLine containsSub
  rw [goSplit_marker_head t hocc]
  simp

/-- The NUL padding line emits no title. -/
theorem titleOfLine_nuls (k : Nat) :
    titleOfLine (List.replicate k nulChar) = none := by
  have hocc : ¬(markerTitle <:+: List.replicate k nulChar) := by
    refine not_infix_of_mem_not_mem _ _ ('S') (by decide) ?_
    simp [List.mem_replicate]
    intro _
    decide
  unfold titleOfLine containsSub goSplit
  rw [splitGo_no_occ markerTitle _ [] _ le_rfl hocc]
  simp

/- ——— Claim C9 ——— -/

/-- Counterexample to claim C9: the parser performs no whitespace trimming.
For the diagnostic line `"StreamTitle: Artist - Song Name \n"` (trailing
space before the newline) the claim's trimming would give
`"Artist - Song Name"`, but the code emits the remainder verbatim,
`"Artist - Song Name "` — trailing space kept. -/
theorem C9_no_whitespace_trimming :
    titlesOfChunk (("StreamTitle: Artist - Song Name \n").toList) =
      [("Artist - Song Name ").toList] ∧
    ("Artist - Song Name ").toList ≠ ("Artist - Song Name").toList := by decide

/-- Claim C9 as amended: for a diagnostic line carrying the marker, the
parser splits on `"StreamTitle: "` and emits the remainder exactly as it
appears — the trailing newline never reaches the title only because lines
are obtained by splitting the chunk on newlines, and no whitespace trimming
is performed. In particular, for any newline-free title `t` in which the
marker does not recur, the chunk `"StreamTitle: " ++ t ++ "\n"` emits
exactly the title `t` verbatim, and the claim's instance
`"...StreamTitle: Artist - Song Name\n"` yields `"Artist - Song Name"`. -/
theorem C9_title_split_verbatim :
    (∀ t : List Char, newlineChar ∉ t → ¬(markerTitle <:+: t) →
      titlesOfChunk (markerTitle ++ t ++ [newlineChar]) = [t]) ∧
    titlesOfChunk (("icy StreamTitle: Artist - Song Name\n").toList) =
      [("Artist - Song Name").toList] := by
  constructor
  · intro t hnl hocc
    have hnl2 : newlineChar ∉ markerTitle ++ t := by
      simp [List.mem_append, hnl]
      decide
    unfold titlesOfChunk
    rw [List.append_assoc] at *
    rw [show markerTitle ++ (t ++ [newlineChar]) = (markerTitle ++ t) ++ [newlineChar] by
      simp]
    rw [chunkLines_single_line (markerTitle ++ t) hnl2]
    simp only [List.filterMap_cons, titleOfLine_marker t hocc, titleOfLine_nuls]
    simp
  · decide

/-- Witness for the amended C9 at the claim's own title text. -/
theorem C9_title_split_verbatim_witness :
    titlesOfChunk (markerTitle ++ ("Artist - Song Name").toList ++ [newlineChar]) =
      [("Artist - Song Name").toList] :=
  C9_title_split_verbatim.1 (("Artist - Song Name").toList) (by decide) (by decide)


/- ——— Claim C10 ——— -/

/-- A loaded-and-playing player whose remembered and device volume are both
`v`: the shape `Load(RADIOSPIRAL_STREAM)`; `Play` produces (with volume 1)
and that volume-button presses preserve. -/
def pVol (v : Rat) : StreamPlayer where
  player_name := "ffmpeg"
  stream_url := RADIOSPIRAL_STREAM
  command := some 0
  inPipe := some ⟨1, true⟩
  outPipe := some ⟨3, true⟩
  audioPipe := some ⟨2, true⟩
  otoContext := true
  otoPlayer := some ⟨true, false, v⟩
  currentVolume := v
  fresh := 4
  defaultVolume := 1
  playlistArgs := false

/-- The muted state with remembered volume 0.05: `pVol 0.05` after `Mute`. -/
def pMutedLow : StreamPlayer :=
  { pVol 0.05 with otoPlayer := some ⟨true, false, 0⟩ }

/-- One un-clamped volume-down press on the canonical playing state. -/
theorem dec_pVol (v : Rat) (h : ¬(v - 0.05 ≤ 0)) :
    (pVol v).DecVolume = pVol (v - 0.05) := by
  simp [pVol, StreamPlayer.DecVolume, StreamPlayer.IsPlaying, h]

/-- The 19-step construction `sMutedLow` evaluates to `pMutedLow`. -/
theorem sMutedLow_eq : sMutedLow = pMutedLow := by
  have h0 : sPlaying = pVol 1 := by decide
  have s1 : (pVol 1).DecVolume = pVol 0.95 := by
    rw [dec_pVol 1 (by norm_num)]
    norm_num
  have s2 : (pVol 0.95).DecVolume = pVol 0.9 := by
    rw [dec_pVol 0.95 (by norm_num)]
    norm_num
  have s3 : (pVol 0.9).DecVolume = pVol 0.85 := by
    rw [dec_pVol 0.9 (by norm_num)]
    norm_num
  have s4 : (pVol 0.85).DecVolume = pVol 0.8 := by
    rw [dec_pVol 0.85 (by norm_num)]
    norm_num
  have s5 : (pVol 0.8).DecVolume = pVol 0.75 := by
    rw [dec_pVol 0.8 (by norm_num)]
    norm_num
  have s6 : (pVol 0.75).DecVolume = pVol 0.7 := by
    rw [dec_pVol 0.75 (by norm_num)]
    norm_num
  have s7 : (pVol 0.7).DecVolume = pVol 0.65 := by
    rw [dec_pVol 0.7 (by norm_num)]
    norm_num
  have s8 : (pVol 0.65).DecVolume = pVol 0.6 := by
    rw [dec_pVol 0.65 (by norm_num)]
    norm_num
  have s9 : (pVol 0.6).DecVolume = pVol 0.55 := by
    rw [dec_pVol 0.6 (by norm_num)]
    norm_num
  have s10 : (pVol 0.55).DecVolume = pVol 0.5 := by
    rw [dec_pVol 0.55 (by norm_num)]
    norm_num
  have s11 : (pVol 0.5).DecVolume = pVol 0.45 := by
    rw [dec_pVol 0.5 (by norm_num)]
    norm_num
  have s12 : (pVol 0.45).DecVolume = pVol 0.4 := by
    rw [dec_pVol 0.45 (by norm_num)]
    norm_num
  have s13 : (pVol 0.4).DecVolume = pVol 0.35 := by
    rw [dec_pVol 0.4 (by norm_num)]
    norm_num
  have s14 : (pVol 0.35).DecVolume = pVol 0.3 := by
    rw [dec_pVol 0.35 (by norm_num)]
    norm_num
  have s15 : (pVol 0.3).DecVolume = pVol 0.25 := by
    rw [dec_pVol 0.3 (by norm_num)]
    norm_num
  have s16 : (pVol 0.25).DecVolume = pVol 0.2 := by
    rw [dec_pVol 0.25 (by norm_num)]
    norm_num
  have s17 : (pVol 0.2).DecVolume = pVol 0.15 := by
    rw [dec_pVol 0.2 (by norm_num)]
    norm_num
  have s18 : (pVol 0.15).DecVolume = pVol 0.1 := by
    rw [dec_pVol 0.15 (by norm_num)]
    norm_num
  have s19 : (pVol 0.1).DecVolume = pVol 0.05 := by
    rw [dec_pVol 0.1 (by norm_num)]
    norm_num
  have hm : (pVol 0.05).Mute = pMutedLow := by
    norm_num [pVol, pMutedLow, StreamPlayer.Mute, StreamPlayer.IsPlaying]
  unfold sMutedLow
  rw [h0, s1, s2, s3, s4, s5, s6, s7, s8, s9, s10, s11, s12, s13, s14, s15, s16,
    s17, s18, s19, hm]

/-- Counterexample to claim C10's conclusion: in the reachable muted state
with remembered volume 0.05 (`Load`; `Play`; 19 volume-down presses;
`Mute`), a single `DecVolume()` clamps the remembered volume to 0, pushes 0
to the device, and `IsMuted()` still reports true — "a single volume step
silently un-mutes the player and makes IsMuted() report false" fails for
the downward step at small remembered volumes. -/
theorem C10_decVolume_keeps_mute_at_low_volume :
    sMutedLow.IsPlaying = true ∧ otoVolume sMutedLow = some 0 ∧
    sMutedLow.currentVolume = 0.05 ∧ 0 < sMutedLow.currentVolume ∧
    (sMutedLow.DecVolume).IsMuted = some true := by
  rw [sMutedLow_eq]
  norm_num [pMutedLow, pVol, StreamPlayer.DecVolume, StreamPlayer.IsPlaying,
    StreamPlayer.IsMuted, otoVolume]

/-- Claim C10 as amended: `IncVolume()`/`DecVolume()` operate on the
remembered `currentVolume`, not on the device's actual volume, so while
muted (device volume 0, remembered volume positive) a step sets the device
volume to the remembered value plus or minus 0.05, clamped to [0, 1]. The
upward step always un-mutes (`IsMuted()` reports false); the downward step
un-mutes exactly when the remembered volume exceeds 0.05, and otherwise
clamps the device volume to 0 so that `IsMuted()` stays true. -/
theorem C10_volume_steps_use_remembered (p : StreamPlayer) (o : OtoPlayer)
    (hpo : p.otoPlayer = some o) (hpl : o.playing = true) (_hov : o.volume = 0)
    (hcv : 0 < p.currentVolume) :
    otoVolume p.IncVolume =
      some (if 1 ≤ p.currentVolume + 0.05 then 1 else p.currentVolume + 0.05) ∧
    (p.IncVolume).IsMuted = some false ∧
    otoVolume p.DecVolume =
      some (if p.currentVolume - 0.05 ≤ 0 then 0 else p.currentVolume - 0.05) ∧
    (p.DecVolume).IsMuted = some (decide (p.currentVolume ≤ 0.05)) := by
  have hpl2 : p.IsPlaying = true := by simp [StreamPlayer.IsPlaying, hpo, hpl]
  rw [incVolume_eq p hpl2, decVolume_eq p hpl2]
  refine ⟨by simp [otoVolume, hpo], ?_, by simp [otoVolume, hpo], ?_⟩
  · simp only [StreamPlayer.IsMuted, hpo, Option.map_some', Option.some.injEq,
      decide_eq_false_iff_not]
    split
    · norm_num
    · rename_i hc
      push_neg at hc
      intro hz
      rw [hz] at hc
      linarith
  · simp only [StreamPlayer.IsMuted, hpo, Option.map_some', Option.some.injEq]
    split
    · rename_i hc
      have hle : p.currentVolume ≤ 0.05 := by linarith
      simp [hle]
    · rename_i hc
      push_neg at hc
      have hgt : ¬(p.currentVolume ≤ 0.05) := by
        intro hx
        have : p.currentVolume - 0.05 ≤ 0 := by linarith
        linarith
      have hne : ¬(p.currentVolume - 0.05 = 0) := by
        intro hx
        exact hgt (by linarith)
      simp [hgt, hne]

/-- Witness for the amended C10 at the concrete muted state. -/
theorem C10_volume_steps_use_remembered_witness :
    (sMutedLow.DecVolume).IsMuted = some (decide (sMutedLow.currentVolume ≤ 0.05)) :=
  (C10_volume_steps_use_remembered sMutedLow ⟨true, false, 0⟩
    (by rw [sMutedLow_eq]; rfl) rfl rfl
    (by rw [sMutedLow_eq]; norm_num [pMutedLow, pVol])).2.2.2
